import Mathlib

/-
Verification of `project_management/src/create_project.py` from
naccdata/flywheel-extensions.

The script is a one-shot provisioning CLI: it parses a YAML description of a
research project, walks the project → centers → datatypes tree with a visitor,
and issues "create if absent" calls against the Flywheel remote API.

Shallow embedding conventions:
* Python strings are `List Nat` of Unicode code points (`PyStr`).
* The Python builtins `str.lower`, `str.upper`, `str.isalnum` are embedded
  faithfully for code points up to U+00FF (ASCII and Latin-1), plus the images
  of those code points under case mapping (U+039C, U+0178); beyond that
  region `pyLower`/`pyUpper` act as the identity and `pyIsAlnum` is false
  except at Greek small mu.  (The one Latin-1 behaviour that cannot be
  represented by a char-to-char map, ß capitalizing to the two-character
  "Ss", is outside the inputs of every claim here and is modelled as the
  identity.)
* The in-tree call graph is broken: `flywheel_path_exists(fwpath, fw)`
  requires the client argument `fw`, yet both internal call sites pass only
  the path (lines 91 and 126); and both creation operations require `fw`,
  yet every caller omits it (lines 150, 154, 174, 203, 222).  In Python each
  such call raises `TypeError` at argument binding, before the callee body
  runs.  The embedding therefore returns, for each operation and traversal
  step, the list of observable events it performed together with either its
  value or the uncaught `TypeError` (`PyResult.typeError`); the code after a
  failing call site is unreachable and is not modelled as executing.
* The remote Flywheel client (an external collaborator, not part of this
  repository) is modelled as a store of reachable paths, following the
  collaborator contract of the spec (§6).  No run of the in-tree code ever
  reaches it.
-/

namespace CreateProject

/-- Python strings, as lists of Unicode code points. -/
abbrev PyStr := List Nat

/-- Code points of a Lean string literal, used to write concrete Python
strings readably. -/
def codes (s : String) : PyStr := s.data.map Char.toNat

/-- Embedding of Python `str.lower` (per character): ASCII `A`-`Z` map down by
32 and Latin-1 `À`-`Þ` (except `×`) map down by 32; identity elsewhere
(in particular the micro sign U+00B5 has no lowercase mapping and is
fixed). -/
def pyLower (c : Nat) : Nat :=
  if 65 ≤ c ∧ c ≤ 90 then c + 32
  else if (0xC0 ≤ c ∧ c ≤ 0xD6) ∨ (0xD8 ≤ c ∧ c ≤ 0xDE) then c + 32
  else c

/-- Embedding of Python `str.upper` (per character) on the same region:
ASCII `a`-`z` and Latin-1 `à`-`þ` (except `÷`) map up by 32, `µ` maps to
U+039C, `ÿ` maps to U+0178; identity elsewhere (including ß, whose
two-character uppercase has no char-to-char image). -/
def pyUpper (c : Nat) : Nat :=
  if 97 ≤ c ∧ c ≤ 122 then c - 32
  else if c = 0xB5 then 0x39C
  else if c = 0xFF then 0x178
  else if (0xE0 ≤ c ∧ c ≤ 0xF6) ∨ (0xF8 ≤ c ∧ c ≤ 0xFE) then c - 32
  else c

/-- Embedding of Python `str.isalnum` (per character): true on ASCII digits
and letters, the Latin-1 letters and numeric signs (ª µ º ¹ ² ³ ¼ ½ ¾ and the
À-ÿ letters), and Greek small mu; false beyond the modelled region. -/
def pyIsAlnum (c : Nat) : Bool :=
  (48 ≤ c && c ≤ 57) || (65 ≤ c && c ≤ 90) || (97 ≤ c && c ≤ 122) ||
  c == 0xAA || c == 0xB2 || c == 0xB3 || c == 0xB5 || c == 0xB9 ||
  c == 0xBA || c == 0xBC || c == 0xBD || c == 0xBE ||
  (0xC0 ≤ c && c ≤ 0xD6) || (0xD8 ≤ c && c ≤ 0xF6) || (0xF8 ≤ c && c ≤ 0xFF) ||
  c == 0x3BC

/-- Embedding of Python `str.capitalize`: first character uppercased, the
rest lowercased. -/
def pyCapitalize : PyStr → PyStr
  | [] => []
  | c :: rest => pyUpper c :: rest.map pyLower

/-- The space-to-underscore replacement `name.replace(" ", "_")` of
`sanitize_name`, per character. -/
def spaceToUnder (c : Nat) : Nat := if c = 32 then 95 else c

/-- The character filter of the group-id loop of `sanitize_name`: keep a
character when it is alphanumeric, a dash, or an underscore. -/
def groupIdKeep (c : Nat) : Bool := pyIsAlnum c || c == 45 || c == 95

/-- Embedding of `sanitize_name(name, groupid)` from create_project.py: for a group id,
lower-case, replace spaces with underscores, and keep only characters that
are alphanumeric, `-`, or `_`; otherwise truncate to 64 characters. -/
def sanitize_name (name : PyStr) (groupid : Bool) : PyStr :=
  if groupid then
    ((name.map pyLower).map spaceToUnder).filter groupIdKeep
  else
    name.take 64

/-- Modelled from the spec: `convert_to_slug` from the domain model
(`common.src.projects.project`, not under src/), the "name-to-identifier
slugification utility" (§6) that lower-cases a name and hyphenates it,
e.g. "Site A" becomes "site-a" (§8 end-to-end scenario): lower-case, replace
spaces with `-`, and drop characters that are not alphanumeric or `-`. -/
def convert_to_slug (name : PyStr) : PyStr :=
  ((name.map pyLower).map (fun c => if c = 32 then 45 else c)).filter
    (fun c => pyIsAlnum c || c == 45)

/-! ## Remote client model and the existence probe -/

/-- Outcome of a single `fw.lookup(path)` call: the entity is found, the call
raises an `ApiException` with some HTTP status, or it raises some other
(non-Api) exception. -/
inductive LookupResult
  | found
  | apiError (status : Nat)
  | otherFailure
  deriving DecidableEq

/-- Embedding of `flywheel_path_exists(fwpath, fw)` from create_project.py, over an
arbitrary client behaviour `lk`: `fw.lookup(fwpath)` is attempted; an
`ApiException` with status 404 yields `False`; any other outcome reaches the
final `return True`; a non-`ApiException` exception propagates (modelled as
`Except.error`).  This is the behaviour of the probe when it is invoked with
both of its arguments; the two in-tree call sites never bind `fw` and die
before this body runs. -/
def flywheel_path_exists (lk : PyStr → LookupResult) (fwpath : PyStr) :
    Except Unit Bool :=
  match lk fwpath with
  | .found => .ok true
  | .apiError s => if s = 404 then .ok false else .ok true
  | .otherFailure => .error ()

/-- Modelled from the spec: the remote Flywheel instance, per the collaborator
contract (§6), as the set of container paths currently reachable by
`lookup`. -/
structure FwState where
  entries : List PyStr
  deriving DecidableEq

/-- Whether a path is reachable in the modelled remote state. -/
def pathExists (st : FwState) (path : PyStr) : Bool := path ∈ st.entries

/-- Modelled from the spec: the `lookup(path)` of a healthy state-backed client
(§6, "lookup(path) -> entity | not-found-error"): found when the path is
reachable, otherwise an `ApiException` with status 404. -/
def fwLookup (st : FwState) (path : PyStr) : LookupResult :=
  if pathExists st path then .found else .apiError 404

/-! ## Run outcomes and events -/

/-- Result of running a fragment of the script: a value, or the uncaught
`TypeError` raised by a call that omits a required argument. -/
inductive PyResult (α : Type)
  | ok (a : α)
  | typeError
  deriving DecidableEq

/-- A single call issued to the remote client.  No run of the in-tree code
ever issues one: every path towards a remote call dies at a `TypeError`
first. -/
inductive RemoteCall
  | lookup (path : PyStr)
  | addGroup (gid glabel : PyStr)
  | getGroup (gid : PyStr)
  | addProject (gid plabel : PyStr)
  deriving DecidableEq

/-- An observable event of a run: an attempted invocation of the existence
probe with the given path (`flywheel_path_exists(path)`, which in the source
always raises `TypeError` at argument binding because the required `fw`
argument is omitted), or an actually-issued remote call. -/
inductive Event
  | probeAttempt (path : PyStr)
  | remote (c : RemoteCall)
  deriving DecidableEq

/-! ## The two creation operations -/

/-- Embedding of `create_flywheel_group(group_label, group_id, fw)` from
create_project.py, as entered on a direct invocation with all its arguments:
line 88 sanitizes the label (the result is lost to the exception), line 89
sanitizes the id, and line 91 attempts `flywheel_path_exists(group_id)` —
omitting the required `fw` argument — so the operation raises an uncaught
`TypeError` before the exists/dry-run/live branching and never returns. -/
def create_flywheel_group (group_label group_id : PyStr) (_dryrun : Bool)
    (_st : FwState) : List Event × PyResult (PyStr × FwState) :=
  let _ := sanitize_name group_label false
  let gi := sanitize_name group_id true
  ([Event.probeAttempt gi], PyResult.typeError)

/-- Embedding of `create_flywheel_project(group_id, project_id, project_label, fw)`
from create_project.py, as entered on a direct invocation with all its
arguments: line 121 sanitizes the label (lost to the exception), line 123
builds `project_path = "<group_id>/<project_id>"` with the id verbatim,
line 124 builds the `fw://`-prefixed reference (also lost), and line 126
attempts `flywheel_path_exists(project_path)` — omitting the required `fw`
argument — so the operation raises an uncaught `TypeError` before the
exists/dry-run/live branching and never returns the reference. -/
def create_flywheel_project (group_id project_id project_label : PyStr)
    (_dryrun : Bool) (_st : FwState) : List Event × PyResult (PyStr × FwState) :=
  let _ := sanitize_name project_label false
  let ppath := group_id ++ codes ("/") ++ project_id
  let _ := codes ("fw://") ++ ppath
  ([Event.probeAttempt ppath], PyResult.typeError)

/-! ## Domain model and the traversal visitor -/

/-- A center read from YAML: its name and active flag (the center-id field is
not consumed by this script). -/
structure Center where
  name : PyStr
  active : Bool
  deriving DecidableEq

/-- A project read from YAML: name, centers, datatype names, published flag,
and the `is_primary()` predicate of the domain model (modelled from the spec §3:
the "primary center" / primary-project predicate deciding whether a
project-specific suffix is appended to generated identifiers). -/
structure Project where
  name : PyStr
  centers : List Center
  datatypes : List PyStr
  published : Bool
  primary : Bool
  deriving DecidableEq

/-- Embedding of `FlywheelProjectArtifactCreator.__build_project_id`: the prefix alone for
the primary project, otherwise `<prefix>-<slugified project name>`. -/
def build_project_id (p : Project) (pre : PyStr) : PyStr :=
  if p.primary then pre else pre ++ codes ("-") ++ convert_to_slug p.name

/-- Embedding of `FlywheelProjectArtifactCreator.__create_accepted`: line 173 builds the
project id from prefix `"accepted"`, then line 174 calls
`create_flywheel_project` — evaluating its arguments, including the label
`"<project name> Accepted"` — without the required `fw` argument, raising an
uncaught `TypeError` before the callee is entered. -/
def create_accepted (p : Project) (_group_id : PyStr) (_dryrun : Bool)
    (_st : FwState) : List Event × PyResult FwState :=
  let _ := build_project_id p (codes ("accepted"))
  let _ := p.name ++ codes (" Accepted")
  ([], PyResult.typeError)

/-- Embedding of `FlywheelProjectArtifactCreator.__create_ingest`: with no datatypes the
loop body never runs and the method returns; otherwise the first iteration
builds the ingest id and label (lines 202, 205-206) and then calls
`create_flywheel_project` without the required `fw` argument (line 203),
raising an uncaught `TypeError` before the callee is entered. -/
def create_ingest (p : Project) (_group_id : PyStr) (_dryrun : Bool)
    (st : FwState) : List Event × PyResult FwState :=
  match p.datatypes with
  | [] => ([], PyResult.ok st)
  | dt :: _ =>
    let _ := build_project_id p (codes ("ingest-") ++ dt.map pyLower)
    let _ := p.name ++ codes (" ") ++ pyCapitalize dt ++ codes (" Ingest")
    ([], PyResult.typeError)

/-- Embedding of `FlywheelProjectArtifactCreator.visit_center`: with no current project,
log an error and return without side effects (this path completes); with a
current project set, line 222 calls `create_flywheel_group` — evaluating the
center name and its slug as arguments — without the required `fw` argument,
raising an uncaught `TypeError` before any group, ingest, or accepted
creation. -/
def visit_center (cur : Option Project) (c : Center) (_dryrun : Bool)
    (st : FwState) : List Event × PyResult FwState :=
  match cur with
  | none => ([], PyResult.ok st)
  | some _p =>
    let _ := convert_to_slug c.name
    ([], PyResult.typeError)

/-- Embedding of `create_release(project)`: line 150 calls
`create_flywheel_group` — evaluating the label `"<name> Release"` and the id
`"release-<slug>"` as arguments — without the required `fw` argument,
raising an uncaught `TypeError`; neither the release group nor the master
project is ever created (line 154 is unreachable). -/
def create_release (p : Project) (_dryrun : Bool) (_st : FwState) :
    List Event × PyResult FwState :=
  let _ := p.name ++ codes (" Release")
  let _ := codes ("release-") ++ convert_to_slug p.name
  ([], PyResult.typeError)

/-- The center loop of `visit_project`: each center is dispatched to
`visit_center` in list order with the current project set; an uncaught
exception aborts the loop at the center that raised it. -/
def visit_centers_list (p : Project) (cs : List Center) (dryrun : Bool)
    (st : FwState) : List Event × PyResult FwState :=
  match cs with
  | [] => ([], PyResult.ok st)
  | c :: rest =>
    match visit_center (some p) c dryrun st with
    | (ev, PyResult.ok st2) =>
      let r := visit_centers_list p rest dryrun st2
      (ev ++ r.1, r.2)
    | (ev, PyResult.typeError) => (ev, PyResult.typeError)

/-- The center stage of `visit_project`: skipped entirely (with a warning)
when the project has no centers. -/
def center_stage (p : Project) (dryrun : Bool) (st : FwState) :
    List Event × PyResult FwState :=
  if p.centers.isEmpty then ([], PyResult.ok st)
  else visit_centers_list p p.centers dryrun st

/-- Embedding of `FlywheelProjectArtifactCreator.visit_project`: set the current project
and run the center stage; if it raises, the exception propagates.  Otherwise
the release structure is attempted iff the project is published (and raises
inside `create_release`); an unpublished project logs and completes. -/
def visit_project (p : Project) (dryrun : Bool) (st : FwState) :
    List Event × PyResult FwState :=
  match center_stage p dryrun st with
  | (ev, PyResult.ok st1) =>
    if p.published then
      let s2 := create_release p dryrun st1
      (ev ++ s2.1, s2.2)
    else (ev, PyResult.ok st1)
  | (ev, PyResult.typeError) => (ev, PyResult.typeError)

/-- The main loop over all YAML documents: the project of each document is
visited in order; an uncaught exception aborts the loop at the document that
raised it. -/
def run_pipeline (docs : List Project) (dryrun : Bool) (st : FwState) :
    List Event × PyResult FwState :=
  match docs with
  | [] => ([], PyResult.ok st)
  | p :: rest =>
    match visit_project p dryrun st with
    | (ev, PyResult.ok st2) =>
      let r := run_pipeline rest dryrun st2
      (ev ++ r.1, r.2)
    | (ev, PyResult.typeError) => (ev, PyResult.typeError)

/-! ## The CLI entry point -/

/-- A YAML error mark: zero-based line and column of a parse error. -/
structure YamlMark where
  line : Nat
  col : Nat
  deriving DecidableEq

/-- Modelled from the spec: the outcome of parsing the input file with the
delegated YAML library (§1, §6) — either the list of documents, each already
turned into a `Project` by `Project.create` of the domain model, or a parse
error carrying its problem mark. -/
inductive ParseResult
  | perr (m : YamlMark)
  | pok (docs : List Project)
  deriving DecidableEq

/-- Observable outcome of one CLI run: the process exit code, the reported
(one-based) line/column of a YAML error if any, and the events that occurred
before the run ended. -/
structure RunResult where
  exitCode : Nat
  reported : Option (Nat × Nat)
  events : List Event
  deriving DecidableEq

/-- Embedding of `main()` from create_project.py, over a parse outcome: on a YAML error,
report `"Error: line <mark.line + 1>, column <mark.column + 1>"` and exit
with code 1 before any remote call; otherwise traverse every document with
the visitor — if the traversal raises an uncaught `TypeError`, the
interpreter exits with status 1 (no YAML mark reported), and only if every
document completes does the implicit exit code 0 occur. -/
def main_run (r : ParseResult) (dryrun : Bool) (st : FwState) : RunResult :=
  match r with
  | .perr m => ⟨1, some (m.line + 1, m.col + 1), []⟩
  | .pok docs =>
    match run_pipeline docs dryrun st with
    | (ev, PyResult.ok _) => ⟨0, none, ev⟩
    | (ev, PyResult.typeError) => ⟨1, none, ev⟩

/-- A character already in sanitized group-id form: fixed by lowering and by
the space replacement, and kept by the filter. -/
def stableChar (c : Nat) : Prop :=
  pyLower c = c ∧ spaceToUnder c = c ∧ groupIdKeep c = true

/-- Membership in the character class `[a-z0-9_-]` named by the spec for
sanitized identifiers. -/
def isAsciiIdChar (c : Nat) : Bool :=
  (97 ≤ c && c ≤ 122) || (48 ≤ c && c ≤ 57) || c == 45 || c == 95

/-! ## Sanity checks of the embedding on concrete examples -/

example : sanitize_name (codes ("Site A")) true = codes ("site_a") := by decide

example : convert_to_slug (codes ("Site A")) = codes ("site-a") := by decide

example : sanitize_name (codes ("My Label!")) false = codes ("My Label!") := by
  decide

example :
    visit_project (⟨codes ("Q"), [], [], false, true⟩ : Project) true ⟨[]⟩ =
      ([], PyResult.ok ⟨[]⟩) := by
  decide

example : (main_run (ParseResult.pok []) true ⟨[]⟩).exitCode = 0 := by decide

/-! ## Helper lemmas -/

/-- Against the state-backed client, the existence probe never raises and
returns exactly reachability of the path. -/
theorem flywheel_path_exists_fwLookup (st : FwState) (p : PyStr) :
    flywheel_path_exists (fwLookup st) p = .ok (pathExists st p) := by
  unfold flywheel_path_exists fwLookup
  by_cases h : pathExists st p = true
  · simp [h]
  · simp [h]

/-- Python lowering is idempotent on the modelled region. -/
theorem pyLower_idem (c : Nat) : pyLower (pyLower c) = pyLower c := by
  unfold pyLower
  split_ifs <;> omega

/-- Mapping a function that fixes every element of a list is the identity. -/
theorem map_eq_self_of_fixed {f : Nat → Nat} :
    ∀ {l : PyStr}, (∀ c ∈ l, f c = c) → l.map f = l
  | [], _ => rfl
  | c :: l, h => by
    simp only [List.map_cons, h c (List.mem_cons_self c l)]
    rw [map_eq_self_of_fixed (fun d hd => h d (List.mem_cons_of_mem c hd))]

/-- Every character of a group-id sanitization output is stable. -/
theorem mem_sanitize_stable {s : PyStr} {c : Nat}
    (h : c ∈ sanitize_name s true) : stableChar c := by
  unfold sanitize_name at h
  simp only [if_pos] at h
  rw [List.mem_filter] at h
  obtain ⟨hmem, hkeep⟩ := h
  rw [List.mem_map] at hmem
  obtain ⟨d, hd, hdc⟩ := hmem
  rw [List.mem_map] at hd
  obtain ⟨a, _, had⟩ := hd
  refine ⟨?_, ?_, hkeep⟩
  · by_cases hsp : d = 32
    · have : c = 95 := by rw [← hdc, hsp]; rfl
      subst this; rfl
    · have hcd : c = d := by rw [← hdc]; unfold spaceToUnder; simp [hsp]
      subst hcd; rw [← had]; exact pyLower_idem a
  · have hne : c ≠ 32 := by
      intro hc
      subst hc
      simp [groupIdKeep, pyIsAlnum] at hkeep
    unfold spaceToUnder
    simp [hne]

/-- Group-id sanitization is the identity on strings of stable characters. -/
theorem sanitize_eq_self_of_stable {l : PyStr} (h : ∀ c ∈ l, stableChar c) :
    sanitize_name l true = l := by
  unfold sanitize_name
  simp only [if_pos]
  rw [map_eq_self_of_fixed (fun c hc => (h c hc).1)]
  rw [map_eq_self_of_fixed (fun c hc => (h c hc).2.1)]
  exact List.filter_eq_self.mpr (fun c hc => (h c hc).2.2)

/-! ## The claims -/

/-- C1, counterexample: an `ApiException` with status 500 during the lookup
does NOT propagate out of the existence probe — the probe swallows it and
returns `True` (the `except` block falls through to the final
`return True`). -/
theorem C1_counterexample :
    flywheel_path_exists (fun _ => LookupResult.apiError 500) (codes ("g")) =
        Except.ok true ∧
      flywheel_path_exists (fun _ => LookupResult.apiError 500) (codes ("g")) ≠
        Except.error () := by
  refine ⟨rfl, fun h => ?_⟩
  exact Except.noConfusion (show Except.ok true = Except.error () from h)

/-- C1, amended: the existence probe returns false exactly when the lookup
fails with the not-found status 404; an API error with any other status is
mapped to true (not propagated); only a non-`ApiException` failure propagates
unhandled. -/
theorem C1_probe_status_mapping (lk : PyStr → LookupResult) (fwpath : PyStr) :
    (flywheel_path_exists lk fwpath = Except.ok false ↔
      lk fwpath = LookupResult.apiError 404) ∧
    (∀ s, lk fwpath = LookupResult.apiError s → s ≠ 404 →
      flywheel_path_exists lk fwpath = Except.ok true) ∧
    (flywheel_path_exists lk fwpath = Except.error () ↔
      lk fwpath = LookupResult.otherFailure) := by
  unfold flywheel_path_exists
  cases h : lk fwpath with
  | found => simp
  | apiError s =>
    by_cases h4 : s = 404
    · subst h4; simp
    · simp [h4]
  | otherFailure => simp

/-- Witness for C1: a 404 API error yields false, a 500 API error yields
true. -/
theorem C1_probe_status_mapping_witness :
    flywheel_path_exists (fun _ => LookupResult.apiError 404) (codes ("a")) =
        Except.ok false ∧
      flywheel_path_exists (fun _ => LookupResult.apiError 500) (codes ("b")) =
        Except.ok true := by
  constructor
  · exact (C1_probe_status_mapping (fun _ => LookupResult.apiError 404)
      (codes ("a"))).1.mpr rfl
  · exact (C1_probe_status_mapping (fun _ => LookupResult.apiError 500)
      (codes ("b"))).2.1 500 rfl (by decide)

/-- C2, counterexample: at a concrete call the project-creation operation
returns no string at all, let alone one of the form
`<group_id>/<project_id>`: it raises an uncaught `TypeError` at its internal
probe call (line 126 passes only `project_path` to `flywheel_path_exists`,
whose `fw` parameter is required), after attempting the probe on the path
"g/p" built with the project_id verbatim. -/
theorem C2_counterexample :
    create_flywheel_project (codes ("g")) (codes ("p")) (codes ("lbl")) true
        ⟨[]⟩ =
      ([Event.probeAttempt (codes ("g/p"))], PyResult.typeError) ∧
    (create_flywheel_project (codes ("g")) (codes ("p")) (codes ("lbl")) true
        ⟨[]⟩).2 ≠ PyResult.ok (codes ("g/p"), (⟨[]⟩ : FwState)) := by
  decide

/-- C2, amended: for every call to the project-creation operation the
project_id is used verbatim in the path `<group_id>/<project_id>` handed to
the attempted existence probe, but the operation never reaches any of the
three branches and returns no reference: line 126 omits the required `fw`
argument of `flywheel_path_exists`, so an uncaught `TypeError` is raised
and no remote call is issued. -/
theorem C2_project_probe_typeerror (g p l : PyStr) (dryrun : Bool)
    (st : FwState) :
    (create_flywheel_project g p l dryrun st).1 =
        [Event.probeAttempt (g ++ codes ("/") ++ p)] ∧
      (create_flywheel_project g p l dryrun st).2 = PyResult.typeError :=
  ⟨rfl, rfl⟩

/-- C3, counterexample: on input "é" (U+00E9, alphanumeric for Python) the
group-id sanitization outputs "é" unchanged, a character outside
`[a-z0-9_-]`. -/
theorem C3_counterexample :
    sanitize_name [233] true = [233] ∧ 233 ∈ sanitize_name [233] true ∧
      isAsciiIdChar 233 = false := by
  decide

/-- C3, amended: for input strings of ASCII characters, every character of
the group-id sanitization output is in `[a-z0-9_-]`; a non-ASCII
alphanumeric input character (such as é) can survive to the output. -/
theorem C3_ascii_sanitize_subset (s : PyStr) (h : ∀ c ∈ s, c < 128) :
    ∀ c ∈ sanitize_name s true, isAsciiIdChar c = true := by
  intro c hc
  unfold sanitize_name at hc
  simp only [if_pos] at hc
  rw [List.mem_filter] at hc
  obtain ⟨hmem, hkeep⟩ := hc
  rw [List.mem_map] at hmem
  obtain ⟨d, hd, hdc⟩ := hmem
  rw [List.mem_map] at hd
  obtain ⟨a, ha, had⟩ := hd
  have ha128 := h a ha
  have hdrange : (97 ≤ d ∧ d ≤ 122) ∨ (d < 128 ∧ ¬(65 ≤ d ∧ d ≤ 90)) := by
    unfold pyLower at had
    split_ifs at had <;> omega
  by_cases hsp : d = 32
  · have : c = 95 := by rw [← hdc, hsp]; rfl
    subst this; rfl
  · have hcd : c = d := by rw [← hdc]; unfold spaceToUnder; simp [hsp]
    subst hcd
    simp only [groupIdKeep, pyIsAlnum, Bool.or_eq_true, Bool.and_eq_true,
      decide_eq_true_eq, beq_iff_eq] at hkeep
    simp only [isAsciiIdChar, Bool.or_eq_true, Bool.and_eq_true,
      decide_eq_true_eq, beq_iff_eq]
    omega

/-- Witness for C3: the ASCII input "A b!" sanitizes to characters inside
`[a-z0-9_-]`; in particular its first output character `a` is in the class. -/
theorem C3_ascii_sanitize_subset_witness : isAsciiIdChar 97 = true :=
  C3_ascii_sanitize_subset (codes ("A b!")) (by decide) 97 (by decide)

/-- C9: group-id sanitization is idempotent — sanitizing its own output
leaves it unchanged. -/
theorem C9_sanitize_groupid_idempotent (s : PyStr) :
    sanitize_name (sanitize_name s true) true = sanitize_name s true :=
  sanitize_eq_self_of_stable (fun _ hc => mem_sanitize_stable hc)

/-- C10: group-id sanitization applies no length limit — a 65-character input
of `a` keeps all 65 characters — while the non-identifier branch never
returns more than 64 characters. -/
theorem C10_no_groupid_truncation :
    (∃ s : PyStr, 64 < (sanitize_name s true).length) ∧
      ∀ s : PyStr, (sanitize_name s false).length ≤ 64 := by
  constructor
  · exact ⟨List.replicate 65 97, by decide⟩
  · intro s
    unfold sanitize_name
    simp [List.length_take]

/-- C4, evaluation at the failing input: the first live-mode run of the
pipeline on the YAML of the end-to-end scenario (project "ADRC", one active
center "Site A", datatype "form", not published) raises an uncaught
`TypeError` at the first center visit — line 222 calls
`create_flywheel_group` without its required `fw` argument — before any
remote call: no remote state is ever produced for a second run to observe,
and no creation call ever occurs in any run. -/
theorem C4_first_run_typeerror :
    run_pipeline
        [⟨codes ("ADRC"), [⟨codes ("Site A"), true⟩], [codes ("form")], false,
          true⟩]
        false ⟨[]⟩ =
      ([], PyResult.typeError) := by
  decide

/-- C5, evaluation at the failing input: visiting an inactive center with a
current project never reaches the accepted-project creation call —
`visit_center` raises an uncaught `TypeError` at line 222
(`create_flywheel_group` called without its required `fw` argument) for
every center, active or not, so neither ingest nor accepted creation calls
ever occur. -/
theorem C5_center_visit_typeerror :
    visit_center
        (some ⟨codes ("X"), [], [codes ("form"), codes ("dicom")], false,
          true⟩)
        ⟨codes ("X site"), false⟩ true ⟨[]⟩ =
      ([], PyResult.typeError) := by
  decide

/-- C6, evaluation at the failing input: for a published project the release
stage is entered but `create_release` raises an uncaught `TypeError` at
line 150 (`create_flywheel_group` called without its required `fw`
argument), so neither the release group nor the master project is ever
created, and the project visit itself ends in the error. -/
theorem C6_release_typeerror :
    create_release (⟨codes ("P"), [], [], true, true⟩ : Project) true ⟨[]⟩ =
        ([], PyResult.typeError) ∧
      visit_project (⟨codes ("P"), [], [], true, true⟩ : Project) true ⟨[]⟩ =
        ([], PyResult.typeError) := by
  decide

/-- C7, evaluation at the failing inputs: a group creation in dry-run mode
and a project creation whose probed path is already reachable both raise an
uncaught `TypeError` at their internal one-argument `flywheel_path_exists`
call (lines 91 and 126), after attempting the probe on the sanitized id
(groups) or the verbatim `<group_id>/<project_id>` path (projects): the
exists/dry-run branches are never reached and neither the sanitized id nor
the constructed reference is ever returned. -/
theorem C7_ops_typeerror :
    create_flywheel_group (codes ("G L")) (codes ("G Id")) true ⟨[]⟩ =
        ([Event.probeAttempt (sanitize_name (codes ("G Id")) true)],
          PyResult.typeError) ∧
      create_flywheel_project (codes ("g")) (codes ("p")) (codes ("L")) false
          ⟨[codes ("g/p")]⟩ =
        ([Event.probeAttempt (codes ("g/p"))], PyResult.typeError) := by
  decide

/-- C8, evaluation at the failing input: parsing succeeds on the well-formed
end-to-end document, yet the run exits with status 1 — the traversal raises
an uncaught `TypeError` (missing `fw`) — refuting the exit-code-0 half of
the claim; the parse-failure half does hold: a parse error at mark (2, 7)
exits with code 1, reports the one-based position (3, 8), and no remote
call occurs in either case. -/
theorem C8_wellformed_exit_typeerror :
    main_run
        (ParseResult.pok
          [⟨codes ("ADRC"), [⟨codes ("Site A"), true⟩], [codes ("form")],
            false, true⟩])
        false ⟨[]⟩ =
      ⟨1, none, []⟩ ∧
      main_run (ParseResult.perr ⟨2, 7⟩) false ⟨[]⟩ = ⟨1, some (3, 8), []⟩ := by
  decide

end CreateProject
